import Mathlib

/-!
Shallow embedding of the tsumi authentication core (token lifecycle and
session-consistency protocol): the token codec (src/services/jwt.rs), the
refresh token store (src/db/queries/refresh_tokens.rs), and the signin,
signup, refresh, signout and GitHub OAuth handlers
(src/handlers/auth/*.rs), together with the error boundary
(src/errors.rs).

Timestamps are seconds since the epoch as integers (chrono exposes
second-granularity `timestamp()` values in the claims).  A JWT is
deterministic in its claims given a fixed secret and header, and encoding
is injective in the claims, so a refresh-token cookie value is identified
with either the claims it carries (when correctly signed with the refresh
secret) or an arbitrary other string.  External capabilities (bcrypt
verification, validator email format, GitHub network exchange) are passed
in as function parameters, exactly as the spec directs for collaborators.
-/

namespace Tsumi

/-- Configuration values read from the environment (src/config.rs):
`ACCESS_EXPIRES` and `REFRESH_EXPIRES` are each a single integer, returned
by `access_token_expires_at()` and `refresh_token_expires_at()`. -/
structure Config where
  access_token_expires_at : Int
  refresh_token_expires_at : Int
deriving DecidableEq, Repr

/-- JWT claims (src/services/jwt.rs `Claims`): expiry, issued-at and the
subject user id. -/
structure Claims where
  exp : Int
  iat : Int
  user_id : String
deriving DecidableEq, Repr

/-- A refresh-token cookie value: either a JWT correctly signed with the
refresh secret (identified with its claims, since JWT encoding is
deterministic and injective in the claims) or any other string (malformed
or signed with the wrong key). -/
inductive TokenValue where
  | signed (c : Claims)
  | other (s : String)
deriving DecidableEq, Repr

/-- Default leeway of `jsonwebtoken::Validation::default()`, in seconds:
expiry validation fails only when `exp < now - leeway`. -/
def jwtLeeway : Int := 60

/-- Embedding of `create_access_token` (src/services/jwt.rs lines 14-30):
claims with `exp = now + hours(access_token_expires_at)`. -/
def create_access_token (cfg : Config) (user_id : String) (now : Int) : Claims :=
  { iat := now, exp := now + cfg.access_token_expires_at * 3600, user_id := user_id }

/-- Embedding of `create_refresh_token` (src/services/jwt.rs lines 32-48):
a token signed with the refresh secret whose claims have
`exp = now + hours(refresh_token_expires_at)` — note HOURS of the
configured refresh TTL. -/
def create_refresh_token (cfg : Config) (user_id : String) (now : Int) : TokenValue :=
  .signed { iat := now, exp := now + cfg.refresh_token_expires_at * 3600, user_id := user_id }

/-- Decode failure kinds distinguished by the jsonwebtoken crate as used in
`decode_refresh_token` (src/services/jwt.rs lines 77-101). -/
inductive DecodeError where
  | expired
  | invalid
deriving DecidableEq, Repr

/-- Embedding of `decode_refresh_token` (src/services/jwt.rs lines 77-101):
verification succeeds exactly for values signed with the refresh secret
whose `exp` has not passed (with the default leeway). -/
def decode_refresh_token (tok : TokenValue) (now : Int) : Except DecodeError Claims :=
  match tok with
  | .other _ => .error .invalid
  | .signed c => if c.exp < now - jwtLeeway then .error .expired else .ok c

/-- Row of the `refresh_tokens` table (src/db/models/refresh_token.rs). -/
structure RefreshTokens where
  id : String
  token : TokenValue
  user_id : String
  expires_at : Int
  created_at : Int
deriving DecidableEq, Repr

/-- The refresh token store: the rows of the `refresh_tokens` table. -/
abbrev Store := List RefreshTokens

/-- Embedding of `RefreshTokens::by_token` (src/db/queries/refresh_tokens.rs
lines 17-22): `get_result` of the rows whose `token` column equals the
argument, an error (mapped by every caller) when there is none. -/
def RefreshTokens.by_token (s : Store) (tok : TokenValue) : Option RefreshTokens :=
  s.find? (fun r => decide (r.token = tok))

/-- Embedding of `RefreshTokens::token_exists` (src/db/queries/refresh_tokens.rs
lines 24-28). -/
def RefreshTokens.token_exists (s : Store) (tok : TokenValue) : Bool :=
  s.any (fun r => decide (r.token = tok))

/-- Embedding of `RefreshTokens::delete_by_token` (src/db/queries/refresh_tokens.rs
lines 30-33): deletes every row whose `token` equals the argument and
returns the number of rows affected. -/
def RefreshTokens.delete_by_token (s : Store) (tok : TokenValue) : Store × Nat :=
  (s.filter (fun r => decide (r.token ≠ tok)), s.countP (fun r => decide (r.token = tok)))

/-- Embedding of `RefreshTokens::is_expired` (src/db/queries/refresh_tokens.rs
lines 35-44): true exactly when some row has this `token` AND
`expires_at < now`; in particular an absent token yields false. -/
def RefreshTokens.is_expired (s : Store) (tok : TokenValue) (now : Int) : Bool :=
  s.any (fun r => decide (r.token = tok) && decide (r.expires_at < now))

/-- Embedding of `RefreshTokens::create` (src/db/queries/refresh_tokens.rs
lines 46-62): inserts a row with `expires_at = now + days(days)` — note
DAYS — and `created_at = now`; the insert fails on the UNIQUE(token)
constraint when a row with this token value already exists. -/
def RefreshTokens.create (s : Store) (tok : TokenValue) (user_id : String)
    (days : Int) (now : Int) (newId : String) : Except Unit (Store × RefreshTokens) :=
  if RefreshTokens.token_exists s tok then .error ()
  else
    let r0 : RefreshTokens := { id := newId, token := tok, user_id := user_id,
                                expires_at := now + days * 86400, created_at := now }
    .ok (s ++ [r0], r0)

/-- Error type of src/errors.rs `AuthError`, with each variant carrying its
message. -/
inductive AuthError where
  | notFound (id : String)
  | internalServerError (message : String)
  | validationError (message : String)
  | databaseError (message : String)
  | conflict (message : String)
  | unauthorized (message : String)
deriving DecidableEq, Repr

/-- Display rendering of `AuthError` (the `thiserror` format strings,
src/errors.rs lines 6-25); this string is embedded verbatim in the
response body by `into_response`. -/
def AuthError.display : AuthError → String
  | .notFound id => "User with identifier \x27" ++ id ++ "\x27 not found"
  | .internalServerError m => "Internal server error: " ++ m
  | .validationError m => "Validation failed: " ++ m
  | .databaseError m => "Database operation failed: " ++ m
  | .conflict m => "Resource conflict: " ++ m
  | .unauthorized m => "Unauthorized: " ++ m

/-- Embedding of `AuthError::status_code` (src/errors.rs lines 68-78). -/
def AuthError.status_code : AuthError → Nat
  | .notFound _ => 404
  | .validationError _ => 400
  | .unauthorized _ => 401
  | .conflict _ => 409
  | .databaseError _ => 500
  | .internalServerError _ => 500

/-- Embedding of `AuthError::error_code` (src/errors.rs lines 80-89). -/
def AuthError.error_code : AuthError → String
  | .notFound _ => "NOT_FOUND"
  | .validationError _ => "VALIDATION_ERROR"
  | .unauthorized _ => "UNAUTHORIZED"
  | .conflict _ => "CONFLICT"
  | .databaseError _ => "DATABASE_ERROR"
  | .internalServerError _ => "INTERNAL_SERVER_ERROR"

/-- Caller-visible content of `AuthError::into_response` (src/errors.rs
lines 96-115): the HTTP status, the error code, and the message — the
message is `self.to_string()`, i.e. the display rendering with the
internal cause text embedded. -/
def AuthError.into_response (e : AuthError) : Nat × String × String :=
  (e.status_code, e.error_code, e.display)

/-- True exactly when a handler result is an `Unauthorized` failure. -/
def isUnauthorized {α : Type} : Except AuthError α → Bool
  | .error (.unauthorized _) => true
  | _ => false

/-- True exactly when a handler result is a success. -/
def isOk {α : Type} : Except AuthError α → Bool
  | .ok _ => true
  | _ => false

/-- Successful refresh output (src/handlers/auth/refresh.rs
`RefreshResponse` plus the new refresh token set as the cookie). -/
structure RefreshOk where
  access_token : Claims
  new_refresh_token : TokenValue
deriving DecidableEq, Repr

/-- Embedding of src/handlers/auth/refresh.rs lines 77-116, the rotation
tail of the `refresh` handler: delete the presented value, mint a new
access and refresh token, persist the new refresh record.  `rdf` models an
SQL failure of the delete statement (propagated by `map_err` as a database
error); when the delete succeeds, its affected-row COUNT IS DISCARDED and
the handler proceeds to mint regardless. -/
def refreshRotate (cfg : Config) (store : Store) (v : TokenValue) (user_id : String)
    (now : Int) (newId : String) (rdf : Bool) : Store × Except AuthError RefreshOk :=
  if rdf then (store, .error (.databaseError "Failed to invalidate old token"))
  else
    let s1 := (RefreshTokens.delete_by_token store v).1
    let access := create_access_token cfg user_id now
    let rtok := create_refresh_token cfg user_id now
    match RefreshTokens.create s1 rtok user_id cfg.refresh_token_expires_at now newId with
    | .error _ => (s1, .error (.databaseError "Failed to store new refresh token"))
    | .ok (s2, _) => (s2, .ok { access_token := access, new_refresh_token := rtok })

/-- Embedding of the `refresh` handler (src/handlers/auth/refresh.rs lines
20-117).  `cookie` is the presented refresh credential; `mdf` and `edf`
model an SQL failure of the defensive deletes on the mismatch and expired
paths — both are executed as `let _ = ...`, so their failure leaves the
store unchanged and is otherwise swallowed; `rdf` models an SQL failure of
the rotation delete. -/
def refresh (cfg : Config) (store : Store) (cookie : Option TokenValue) (now : Int)
    (newId : String) (mdf edf rdf : Bool) : Store × Except AuthError RefreshOk :=
  match cookie with
  | none => (store, .error (.unauthorized "No refresh token provided"))
  | some v =>
    match decode_refresh_token v now with
    | .error _ => (store, .error (.unauthorized "Invalid or malformed refresh token"))
    | .ok claims =>
      match RefreshTokens.by_token store v with
      | none => (store, .error (.unauthorized "Invalid refresh token"))
      | some r =>
        if r.user_id ≠ claims.user_id then
          (if mdf then store else (RefreshTokens.delete_by_token store v).1,
           .error (.unauthorized "Token validation failed"))
        else if RefreshTokens.is_expired store r.token now then
          (if edf then store else (RefreshTokens.delete_by_token store v).1,
           .error (.unauthorized "Refresh token has expired"))
        else
          refreshRotate cfg store v claims.user_id now newId rdf

/-- Outcome of the `sign_out` handler: the store afterwards, whether
`remove_refresh_token_cookie` ran, and the result. -/
structure SignOutOutcome where
  store : Store
  cookieCleared : Bool
  result : Except AuthError Unit
deriving Repr

/-- Embedding of the `sign_out` handler (src/handlers/auth/signout.rs lines
17-62).  `deleteFails` models an SQL failure of `delete_by_token`; the `?`
on that call returns the database error BEFORE `remove_refresh_token_cookie`
is reached, so the cookie is not cleared on that path. -/
def sign_out (store : Store) (cookie : Option TokenValue) (deleteFails : Bool) : SignOutOutcome :=
  match cookie with
  | none =>
    { store := store, cookieCleared := false,
      result := .error (.unauthorized "No active session found") }
  | some v =>
    if RefreshTokens.token_exists store v then
      if deleteFails then
        { store := store, cookieCleared := false,
          result := .error (.databaseError "Failed to invalidate session") }
      else
        { store := (RefreshTokens.delete_by_token store v).1, cookieCleared := true,
          result := .ok () }
    else
      { store := store, cookieCleared := true,
        result := .error (.unauthorized "Invalid or expired session") }

/-- Row of the `users` table, restricted to the columns the auth core
reads (src/db/models/user_model.rs). -/
structure User where
  id : String
  name : String
  email : String
  password : String
  email_verified : Bool
deriving DecidableEq, Repr

/-- Payload of `SignInRequest` (src/handlers/auth/mod.rs). -/
structure SignInRequest where
  email : String
  password : String
deriving DecidableEq, Repr

/-- Validation of `SignInRequest` (src/handlers/auth/mod.rs): the
validator email format check (an external capability, passed in as
`emailOk`) and the password length bounds 8..=128. -/
def signInValidate (emailOk : String → Bool) (p : SignInRequest) : Bool :=
  emailOk p.email && decide (8 ≤ p.password.length) && decide (p.password.length ≤ 128)

/-- Lookup of a user by email as in the signin handler
(src/handlers/auth/signin.rs lines 43-55): first row with this email. -/
def findUserByEmail (users : List User) (email : String) : Option User :=
  users.find? (fun u => decide (u.email = email))

/-- Embedding of `cleanup_existing_tokens` (src/handlers/auth/signin.rs
lines 117-156): when a refresh cookie is presented and its value has a
store record, delete ALL rows with `user_id` equal to the logging-in
principal when the record belongs to someone else, and otherwise delete
just the rows with this token value. -/
def cleanup_existing_tokens (store : Store) (cookie : Option TokenValue)
    (user_id : String) : Store :=
  match cookie with
  | none => store
  | some v =>
    match RefreshTokens.by_token store v with
    | none => store
    | some r =>
      if r.user_id ≠ user_id then
        store.filter (fun rc => decide (rc.user_id ≠ user_id))
      else
        store.filter (fun rc => decide (rc.token ≠ v))

/-- Successful signin output: the signed-in user, the minted access token
claims, the minted refresh token (set as the refresh cookie), and the
refresh-token row inserted into the store. -/
structure SignInOk where
  user : User
  access_token : Claims
  refresh_token : TokenValue
  record : RefreshTokens
deriving DecidableEq, Repr

/-- Embedding of the `sign_in` handler (src/handlers/auth/signin.rs lines
25-115).  `verify` is the bcrypt verification capability; `newId` the
fresh UUID of the inserted row.  The inserted `NewRefreshToken` is built
inline in the handler with `expires_at = now + days(refresh_token_expires_at)`
— note DAYS of the same configured TTL whose HOURS bound the minted
refresh token claims. -/
def sign_in (emailOk : String → Bool) (verify : String → String → Bool) (cfg : Config)
    (users : List User) (store : Store) (cookie : Option TokenValue)
    (payload : SignInRequest) (now : Int) (newId : String) :
    Store × Except AuthError SignInOk :=
  if ¬ signInValidate emailOk payload then
    (store, .error (.validationError "Invalid sign in data"))
  else
    match findUserByEmail users payload.email with
    | none => (store, .error (.unauthorized "Invalid email or password"))
    | some user =>
      if ¬ verify payload.password user.password then
        (store, .error (.unauthorized "Invalid email or password"))
      else if ¬ user.email_verified then
        (store, .error (.unauthorized "Please verify your email address before signing in"))
      else
        let s1 := cleanup_existing_tokens store cookie user.id
        let access := create_access_token cfg user.id now
        let rtok := create_refresh_token cfg user.id now
        if RefreshTokens.token_exists s1 rtok then
          (s1, .error (.databaseError "Failed to create user session"))
        else
          let r0 : RefreshTokens := { id := newId, token := rtok, user_id := user.id,
                                      expires_at := now + cfg.refresh_token_expires_at * 86400,
                                      created_at := now }
          (s1 ++ [r0], .ok { user := user, access_token := access,
                             refresh_token := rtok, record := r0 })

/-- Response of a successful signup (src/handlers/auth/mod.rs
`SignUpResponse`). -/
structure SignUpResponse where
  id : String
  username : String
  email : String
  email_verified : Bool
deriving DecidableEq, Repr

/-- Validation of `SignUpRequest` (src/handlers/auth/mod.rs): name length
3..=50, validator email format (capability), password length 8..=128. -/
def signUpValidate (emailOk : String → Bool) (name email password : String) : Bool :=
  decide (3 ≤ name.length) && decide (name.length ≤ 50) && emailOk email &&
  decide (8 ≤ password.length) && decide (password.length ≤ 128)

/-- Embedding of the `sign_up` handler (src/handlers/auth/signup.rs lines
14-96): validate, reject `Conflict` on an existing email then on an
existing display name, hash the password (capability `hash`), insert the
user with `email_verified = false` and return the created account.  The
refresh token store is threaded through to record that the handler never
touches it: NO access or refresh token is minted and NO refresh record is
persisted. -/
def sign_up (emailOk : String → Bool) (hash : String → String)
    (users : List User) (store : Store) (name email password : String)
    (newUserId : String) : (List User × Store) × Except AuthError SignUpResponse :=
  if ¬ signUpValidate emailOk name email password then
    ((users, store), .error (.validationError "Invalid signup data"))
  else if users.any (fun u => decide (u.email = email)) then
    ((users, store), .error (.conflict "Email address is already registered"))
  else if users.any (fun u => decide (u.name = name)) then
    ((users, store), .error (.conflict "Username is already taken"))
  else
    let u : User := { id := newUserId, name := name, email := email,
                      password := hash password, email_verified := false }
    ((users ++ [u], store),
     .ok { id := newUserId, username := name, email := email, email_verified := false })

/-- Claims of the single JWT minted by the GitHub OAuth callback
(src/utils.rs `create_jwt`): subject, a fixed 24-hour expiry, issued-at
and issuer; signed with the ACCESS secret. -/
structure GithubJwt where
  sub : String
  exp : Int
  iat : Int
  iss : String
deriving DecidableEq, Repr

/-- Embedding of `create_jwt` (src/utils.rs lines 18-33). -/
def create_jwt (user_id : String) (now : Int) : GithubJwt :=
  { sub := user_id, exp := now + 24 * 3600, iat := now, iss := "tsumi" }

/-- Embedding of `handle_github_oauth` (src/handlers/auth/github.rs lines
75-99).  `exchange` models `exchange_code_for_token` (the external token,
or a failure) and `fetchLogin` models `get_github_user`.  On success the
handler mints ONE JWT via `create_jwt`, sets it as the `auth_token`
cookie and redirects; it mints no refresh token and never touches the
refresh token store, which is threaded through to record that frame. -/
def handle_github_oauth (exchange : Option String) (fetchLogin : String → Option String)
    (store : Store) (now : Int) : Store × Option GithubJwt :=
  match exchange with
  | none => (store, none)
  | some tok =>
    match fetchLogin tok with
    | none => (store, none)
    | some login => (store, some (create_jwt login now))

/-!
Theorems for the claims.
-/

/-- Claim C1: the claim states that the expiry stored in the refresh-token
store record and the expiresAt claim encoded in the signed refresh token
agree, both derived consistently from the configured refresh TTL.  The
code derives the claim expiry as `now + TTL hours` (src/services/jwt.rs
line 36) but the store record expiry as `now + TTL days`
(src/handlers/auth/signin.rs line 93 and src/db/queries/refresh_tokens.rs
line 48), so for TTL = 7 a signin issued at time 0 stores
`expires_at = 604800` while the minted token carries `exp = 25200`.  The
spec states the consistency requirement explicitly and flags divergence
as a correctness bug, and every other use of the TTL (the store record
and the cookie max-age) takes days, so the hours in the codec are the
slip: this exhibits the failing input. -/
theorem c1_refresh_expiry_units_diverge :
    (sign_in (fun _ => true) (fun a b => decide (a = b))
        { access_token_expires_at := 1, refresh_token_expires_at := 7 }
        [{ id := "u1", name := "alice", email := "a@x.com",
           password := "password1", email_verified := true }]
        [] none { email := "a@x.com", password := "password1" } 0 "rid").2 =
      .ok { user := { id := "u1", name := "alice", email := "a@x.com",
                      password := "password1", email_verified := true },
            access_token := { exp := 3600, iat := 0, user_id := "u1" },
            refresh_token := .signed { exp := 25200, iat := 0, user_id := "u1" },
            record := { id := "rid",
                        token := .signed { exp := 25200, iat := 0, user_id := "u1" },
                        user_id := "u1", expires_at := 604800, created_at := 0 } } ∧
    ¬ ((604800 : Int) = 25200) :=
  ⟨rfl, by decide⟩

/-- Claim C2, counterexample: rotation re-mints the refresh JWT from the
same deterministic claims, so a rotation performed in the same second as
the presented token was issued (same `iat`, same TTL, same subject)
produces the IDENTICAL token value, re-inserts a record for it, and the
very same value then succeeds on a second refresh: the token is usable
twice, refuting the claim as stated. -/
theorem c2_same_second_rotation_reuses_value :
    (refresh { access_token_expires_at := 1, refresh_token_expires_at := 1 }
        [⟨"id0", .signed ⟨3600, 0, "u1"⟩, "u1", 86400, 0⟩]
        (some (.signed ⟨3600, 0, "u1"⟩)) 0 "n1" false false false) =
      ([⟨"n1", .signed ⟨3600, 0, "u1"⟩, "u1", 86400, 0⟩],
       .ok ⟨⟨3600, 0, "u1"⟩, .signed ⟨3600, 0, "u1"⟩⟩) ∧
    isOk (refresh { access_token_expires_at := 1, refresh_token_expires_at := 1 }
        [⟨"n1", .signed ⟨3600, 0, "u1"⟩, "u1", 86400, 0⟩]
        (some (.signed ⟨3600, 0, "u1"⟩)) 0 "n2" false false false).2 = true :=
  ⟨rfl, rfl⟩

/-- Claim C3: the claim states that a zero-row delete of the old refresh
token aborts the request with Unauthorized before minting.  In the code
(src/handlers/auth/refresh.rs lines 77-81) only an SQL error aborts (as a
database error); the affected-row count of a successful delete is
discarded, so with the record already removed by a concurrent rotation
the delete affects 0 rows and the handler still mints and persists a new
pair.  This evaluates the rotation tail on a store in which the record is
already gone: the delete count is 0, yet the result is a success that
inserts a fresh record. -/
theorem c3_zero_row_delete_still_mints :
    (RefreshTokens.delete_by_token ([] : Store) (.signed ⟨3600, 0, "u1"⟩)).2 = 0 ∧
    refreshRotate { access_token_expires_at := 1, refresh_token_expires_at := 1 }
        [] (.signed ⟨3600, 0, "u1"⟩) "u1" 0 "nid" false =
      ([⟨"nid", .signed ⟨3600, 0, "u1"⟩, "u1", 86400, 0⟩],
       .ok ⟨⟨3600, 0, "u1"⟩, .signed ⟨3600, 0, "u1"⟩⟩) :=
  ⟨rfl, rfl⟩

/-- Claim C4, counterexample: two signin runs failing Unauthorized for
different internal causes (unknown email vs unverified email) produce
caller-visible responses with DIFFERENT messages, because
`into_response` embeds the display string of the error
(src/errors.rs line 106): the responses are distinguishable, refuting
the claim of one identical generic message. -/
theorem c4_unauthorized_messages_distinguishable :
    (sign_in (fun _ => true) (fun a b => decide (a = b))
        { access_token_expires_at := 1, refresh_token_expires_at := 7 }
        [] [] none { email := "a@x.com", password := "password1" } 0 "rid").2 =
      .error (.unauthorized "Invalid email or password") ∧
    (sign_in (fun _ => true) (fun a b => decide (a = b))
        { access_token_expires_at := 1, refresh_token_expires_at := 7 }
        [{ id := "u1", name := "bob", email := "a@x.com",
           password := "password1", email_verified := false }]
        [] none { email := "a@x.com", password := "password1" } 0 "rid").2 =
      .error (.unauthorized "Please verify your email address before signing in") ∧
    AuthError.into_response (.unauthorized "Invalid email or password") ≠
      AuthError.into_response (.unauthorized "Please verify your email address before signing in") :=
  ⟨rfl, rfl, by decide⟩

/-- Claim C5, counterexample: a fully successful signup creates the
principal but mints NO tokens and leaves the refresh-token store
untouched (still empty), and a fully successful GitHub OAuth callback
mints a single 24-hour JWT and also leaves the refresh-token store
untouched — neither runs the Session Issuance Protocol, refuting the
claim as stated. -/
theorem c5_signup_and_oauth_issue_no_session :
    sign_up (fun _ => true) (fun p => p) [] [] "alice" "a@x.com" "password1" "u1" =
      (([{ id := "u1", name := "alice", email := "a@x.com",
           password := "password1", email_verified := false }], ([] : Store)),
       .ok { id := "u1", username := "alice", email := "a@x.com", email_verified := false }) ∧
    handle_github_oauth (some "ghTok") (fun _ => some "octo") ([] : Store) 5 =
      (([] : Store), some { sub := "octo", exp := 86405, iat := 5, iss := "tsumi" }) :=
  ⟨rfl, rfl⟩

/-- Claim C6, counterexample: the claim states `isExpired` returns true
when no record exists for the value; `RefreshTokens::is_expired`
(src/db/queries/refresh_tokens.rs lines 35-44) is an EXISTS query over
rows with that token and a passed expiry, so an absent token yields
false, refuting the claim as stated. -/
theorem c6_absent_token_reported_unexpired :
    RefreshTokens.is_expired ([] : Store) (.other "absent") 100 = false :=
  rfl

/-- Claim C6 (amended): for every token value and time now, the store
`is_expired` check returns true exactly when a record exists for the
value AND its `expires_at` is earlier than now; when no record exists it
returns false. -/
theorem c6_is_expired_iff (s : Store) (tok : TokenValue) (now : Int) :
    RefreshTokens.is_expired s tok now = true ↔
      ∃ r ∈ s, r.token = tok ∧ r.expires_at < now := by
  simp [RefreshTokens.is_expired, List.any_eq_true]

/-- Claim C9, counterexample: with the refresh token present in the store
but the store deletion failing, the `?` on the delete
(src/handlers/auth/signout.rs lines 48-52) returns the database error
BEFORE `remove_refresh_token_cookie` runs, so the client-side credential
is NOT cleared on that path, refuting the claim as stated. -/
theorem c9_failed_delete_skips_cookie_clear :
    sign_out [⟨"id0", .signed ⟨3600, 0, "u1"⟩, "u1", 86400, 0⟩]
        (some (.signed ⟨3600, 0, "u1"⟩)) true =
      { store := [⟨"id0", .signed ⟨3600, 0, "u1"⟩, "u1", 86400, 0⟩],
        cookieCleared := false,
        result := .error (.databaseError "Failed to invalidate session") } :=
  rfl

/-- Claim C9 (amended): after a refresh credential is presented, signout
clears the client-side credential when the token is absent from the store
(returning Unauthorized with the store unchanged) and when the token is
present and the deletion succeeds (returning success with the record
deleted); when the deletion fails the handler returns a database error
without clearing the credential and with the store unchanged. -/
theorem c9_signout_cookie_paths (store : Store) (v : TokenValue) (df : Bool) :
    (RefreshTokens.token_exists store v = false →
      sign_out store (some v) df =
        { store := store, cookieCleared := true,
          result := .error (.unauthorized "Invalid or expired session") }) ∧
    (RefreshTokens.token_exists store v = true →
      (df = false →
        sign_out store (some v) df =
          { store := (RefreshTokens.delete_by_token store v).1,
            cookieCleared := true, result := .ok () }) ∧
      (df = true →
        sign_out store (some v) df =
          { store := store, cookieCleared := false,
            result := .error (.databaseError "Failed to invalidate session") })) := by
  refine ⟨fun h => ?_, fun h => ⟨fun hdf => ?_, fun hdf => ?_⟩⟩
  · simp [sign_out, h]
  · simp [sign_out, h, hdf]
  · simp [sign_out, h, hdf]

/-- Witness for claim C9 (amended) at a concrete input: an empty store
does not contain the presented value, so signout clears the credential
and fails Unauthorized. -/
theorem c9_signout_cookie_paths_witness :
    sign_out ([] : Store) (some (.other "stale")) false =
      { store := ([] : Store), cookieCleared := true,
        result := .error (.unauthorized "Invalid or expired session") } :=
  (c9_signout_cookie_paths ([] : Store) (.other "stale") false).1 rfl

/-- Claim C7: in the refresh protocol, whenever the found store record
belongs to a different principal than the subject decoded from the
presented token, the request fails Unauthorized for every outcome of the
defensive delete (its failure, modelled by `mdf`, is swallowed by the
`let _ = ...` in src/handlers/auth/refresh.rs line 61), and when the
delete succeeds the record is removed from the store. -/
theorem c7_mismatch_unauthorized (cfg : Config) (store : Store) (v : TokenValue)
    (claims : Claims) (r : RefreshTokens) (now : Int) (newId : String)
    (mdf edf rdf : Bool)
    (hdec : decode_refresh_token v now = .ok claims)
    (hfind : RefreshTokens.by_token store v = some r)
    (hne : r.user_id ≠ claims.user_id) :
    (refresh cfg store (some v) now newId mdf edf rdf).2 =
      .error (.unauthorized "Token validation failed") ∧
    (mdf = false →
      (refresh cfg store (some v) now newId mdf edf rdf).1 =
        store.filter (fun rc => decide (rc.token ≠ v))) := by
  constructor
  · simp [refresh, hdec, hfind, hne]
  · intro hmdf
    simp [refresh, hdec, hfind, hne, hmdf, RefreshTokens.delete_by_token]

/-- Witness for claim C7 at a concrete input: the stored record belongs
to principal u2 while the presented token decodes to subject u1, so the
refresh fails with the Unauthorized token-validation message. -/
theorem c7_mismatch_unauthorized_witness :
    (refresh { access_token_expires_at := 1, refresh_token_expires_at := 1 }
        [⟨"id0", .signed ⟨3600, 0, "u1"⟩, "u2", 86400, 0⟩]
        (some (.signed ⟨3600, 0, "u1"⟩)) 0 "nid" false false false).2 =
      .error (.unauthorized "Token validation failed") :=
  (c7_mismatch_unauthorized { access_token_expires_at := 1, refresh_token_expires_at := 1 }
    [⟨"id0", .signed ⟨3600, 0, "u1"⟩, "u2", 86400, 0⟩] (.signed ⟨3600, 0, "u1"⟩)
    ⟨3600, 0, "u1"⟩ ⟨"id0", .signed ⟨3600, 0, "u1"⟩, "u2", 86400, 0⟩ 0 "nid"
    false false false rfl rfl (by decide)).1

/-- Claim C8: whenever signin fails Unauthorized — unknown email, wrong
password for a known email, or correct credentials with the
email-verified gate unset — the handler returns with the refresh-token
store exactly as it was and without minting any token (all three checks
precede `cleanup_existing_tokens` and the minting code,
src/handlers/auth/signin.rs lines 43-71). -/
theorem c8_signin_failure_no_issuance (emailOk : String → Bool)
    (verify : String → String → Bool) (cfg : Config) (users : List User)
    (store : Store) (cookie : Option TokenValue) (payload : SignInRequest)
    (now : Int) (newId : String)
    (hval : signInValidate emailOk payload = true) :
    (findUserByEmail users payload.email = none →
      sign_in emailOk verify cfg users store cookie payload now newId =
        (store, .error (.unauthorized "Invalid email or password"))) ∧
    (∀ user : User, findUserByEmail users payload.email = some user →
      verify payload.password user.password = false →
      sign_in emailOk verify cfg users store cookie payload now newId =
        (store, .error (.unauthorized "Invalid email or password"))) ∧
    (∀ user : User, findUserByEmail users payload.email = some user →
      verify payload.password user.password = true →
      user.email_verified = false →
      sign_in emailOk verify cfg users store cookie payload now newId =
        (store, .error (.unauthorized "Please verify your email address before signing in"))) := by
  refine ⟨fun hfind => ?_, fun user hfind hv => ?_, fun user hfind hv hev => ?_⟩
  · simp [sign_in, hval, hfind]
  · simp [sign_in, hval, hfind, hv]
  · simp [sign_in, hval, hfind, hv, hev]

/-- Witness for claim C8 at a concrete input: no user has the given
email, so signin fails Unauthorized with the store unchanged. -/
theorem c8_signin_failure_no_issuance_witness :
    sign_in (fun _ => true) (fun a b => decide (a = b))
        { access_token_expires_at := 1, refresh_token_expires_at := 7 }
        [] [⟨"id9", .other "tok", "u9", 86400, 0⟩] none
        { email := "a@x.com", password := "password1" } 0 "rid" =
      ([⟨"id9", .other "tok", "u9", 86400, 0⟩],
       .error (.unauthorized "Invalid email or password")) :=
  (c8_signin_failure_no_issuance (fun _ => true) (fun a b => decide (a = b))
    { access_token_expires_at := 1, refresh_token_expires_at := 7 }
    [] [⟨"id9", .other "tok", "u9", 86400, 0⟩] none
    { email := "a@x.com", password := "password1" } 0 "rid" rfl).1 rfl

/-- Claim C10: when the presented refresh token resolves to a record of a
DIFFERENT principal, the defensive wipe of `cleanup_existing_tokens`
deletes exactly the rows whose user id equals the logging-in principal,
so the presented token record itself (owned by the other principal)
survives in the store. -/
theorem c10_cleanup_wipe_frame (store : Store) (v : TokenValue) (uid : String)
    (r : RefreshTokens)
    (hfind : RefreshTokens.by_token store v = some r)
    (hne : r.user_id ≠ uid) :
    cleanup_existing_tokens store (some v) uid =
      store.filter (fun rc => decide (rc.user_id ≠ uid)) ∧
    r ∈ cleanup_existing_tokens store (some v) uid := by
  have hmem : r ∈ store := List.mem_of_find?_eq_some hfind
  have heq : cleanup_existing_tokens store (some v) uid =
      store.filter (fun rc => decide (rc.user_id ≠ uid)) := by
    simp [cleanup_existing_tokens, hfind, hne]
  refine ⟨heq, ?_⟩
  rw [heq]
  exact List.mem_filter.mpr ⟨hmem, by simpa using hne⟩

/-- Witness for claim C10 at a concrete input: the presented token is
owned by principal other while principal me signs in, so only the rows of
me are wiped and the record of other survives. -/
theorem c10_cleanup_wipe_frame_witness :
    cleanup_existing_tokens
        [⟨"idA", .signed ⟨3600, 0, "other"⟩, "other", 86400, 0⟩,
         ⟨"idB", .other "mine", "me", 86400, 0⟩]
        (some (.signed ⟨3600, 0, "other"⟩)) "me" =
      List.filter (fun rc => decide (rc.user_id ≠ "me"))
        [⟨"idA", .signed ⟨3600, 0, "other"⟩, "other", 86400, 0⟩,
         ⟨"idB", .other "mine", "me", 86400, 0⟩] :=
  (c10_cleanup_wipe_frame
    [⟨"idA", .signed ⟨3600, 0, "other"⟩, "other", 86400, 0⟩,
     ⟨"idB", .other "mine", "me", 86400, 0⟩]
    (.signed ⟨3600, 0, "other"⟩) "me"
    ⟨"idA", .signed ⟨3600, 0, "other"⟩, "other", 86400, 0⟩ rfl (by decide)).1

/-- Claim C4 (amended): every Unauthorized failure of these protocols is
delivered with status 401 and error code UNAUTHORIZED, but the response
message embeds the specific internal cause text rather than one identical
generic message; within signin, the unknown-email and wrong-password
causes do produce the literally identical error value, hence
indistinguishable responses. -/
theorem c4_unauthorized_uniform_status_varied_message (emailOk : String → Bool)
    (verify : String → String → Bool) (cfg : Config) (users : List User)
    (store : Store) (cookie : Option TokenValue) (payload : SignInRequest)
    (now : Int) (newId : String)
    (hval : signInValidate emailOk payload = true) :
    (∀ m : String, (AuthError.unauthorized m).into_response =
        (401, "UNAUTHORIZED", "Unauthorized: " ++ m)) ∧
    (findUserByEmail users payload.email = none →
      (sign_in emailOk verify cfg users store cookie payload now newId).2 =
        .error (.unauthorized "Invalid email or password")) ∧
    (∀ user : User, findUserByEmail users payload.email = some user →
      verify payload.password user.password = false →
      (sign_in emailOk verify cfg users store cookie payload now newId).2 =
        .error (.unauthorized "Invalid email or password")) := by
  refine ⟨fun m => rfl, fun hfind => ?_, fun user hfind hv => ?_⟩
  · simp [sign_in, hval, hfind]
  · simp [sign_in, hval, hfind, hv]

/-- Witness for claim C4 (amended) at a concrete input: signin with an
unknown email yields the same Unauthorized error value as a
wrong-password attempt would. -/
theorem c4_unauthorized_uniform_status_witness :
    (sign_in (fun _ => true) (fun a b => decide (a = b))
        { access_token_expires_at := 1, refresh_token_expires_at := 7 }
        [] [] none { email := "a@x.com", password := "password1" } 0 "rid").2 =
      .error (.unauthorized "Invalid email or password") :=
  (c4_unauthorized_uniform_status_varied_message (fun _ => true)
    (fun a b => decide (a = b))
    { access_token_expires_at := 1, refresh_token_expires_at := 7 }
    [] [] none { email := "a@x.com", password := "password1" } 0 "rid" rfl).2.1 rfl

/-- Claim C5 (amended): only signin (and refresh rotation) runs the
Session Issuance Protocol.  Every successful signin mints an access token
and a refresh token for the signed-in principal via the codec and
persists a store record keyed by the minted refresh value; the signup
handler and the GitHub OAuth callback never touch the refresh-token
store (signup mints no token at all, the callback mints a single
24-hour JWT cookie). -/
theorem c5_issuance_only_signin (emailOk : String → Bool)
    (verify : String → String → Bool) (cfg : Config) (users : List User)
    (store : Store) (cookie : Option TokenValue) (payload : SignInRequest)
    (now : Int) (newId : String) (hash : String → String)
    (name email password uid : String)
    (exchange : Option String) (fetchLogin : String → Option String)
    (s2 : Store) (res : SignInOk)
    (h : sign_in emailOk verify cfg users store cookie payload now newId = (s2, .ok res)) :
    (res.access_token = create_access_token cfg res.user.id now ∧
     res.refresh_token = create_refresh_token cfg res.user.id now ∧
     res.record.token = res.refresh_token ∧
     res.record.user_id = res.user.id ∧
     res.record ∈ s2) ∧
    ((sign_up emailOk hash users store name email password uid).1).2 = store ∧
    (handle_github_oauth exchange fetchLogin store now).1 = store := by
  refine ⟨?_, ?_, ?_⟩
  · simp only [sign_in] at h
    split at h
    · simp at h
    · split at h
      · simp at h
      · split at h
        · simp at h
        · split at h
          · simp at h
          · split at h
            · simp at h
            · simp only [Prod.mk.injEq, Except.ok.injEq] at h
              obtain ⟨hs, hres⟩ := h
              subst hs
              subst hres
              refine ⟨rfl, rfl, rfl, rfl, ?_⟩
              exact List.mem_append.mpr (Or.inr (List.mem_singleton.mpr rfl))
  · unfold sign_up
    split
    · rfl
    · split
      · rfl
      · split
        · rfl
        · rfl
  · cases exchange with
    | none => rfl
    | some t =>
      cases hfl : fetchLogin t with
      | none => simp [handle_github_oauth, hfl]
      | some login => simp [handle_github_oauth, hfl]

/-- Witness for claim C5 (amended) at a concrete input: a successful
signin for alice, after which the signup frame conjunct shows the
refresh-token store untouched by signup. -/
theorem c5_issuance_only_signin_witness :
    ((sign_up (fun _ => true) (fun p => p)
        [{ id := "u1", name := "alice", email := "a@x.com",
           password := "password1", email_verified := true }]
        [] "bob" "b@x.com" "password1" "u2").1).2 = ([] : Store) :=
  (c5_issuance_only_signin (fun _ => true) (fun a b => decide (a = b))
    { access_token_expires_at := 1, refresh_token_expires_at := 7 }
    [{ id := "u1", name := "alice", email := "a@x.com",
       password := "password1", email_verified := true }]
    [] none { email := "a@x.com", password := "password1" } 0 "rid"
    (fun p => p) "bob" "b@x.com" "password1" "u2" (some "t") (fun _ => some "o")
    [{ id := "rid", token := .signed { exp := 25200, iat := 0, user_id := "u1" },
       user_id := "u1", expires_at := 604800, created_at := 0 }]
    { user := { id := "u1", name := "alice", email := "a@x.com",
                password := "password1", email_verified := true },
      access_token := { exp := 3600, iat := 0, user_id := "u1" },
      refresh_token := .signed { exp := 25200, iat := 0, user_id := "u1" },
      record := { id := "rid", token := .signed { exp := 25200, iat := 0, user_id := "u1" },
                  user_id := "u1", expires_at := 604800, created_at := 0 } }
    rfl).2.1

/-- Helper: a token value absent from every row of a store is not found
by `by_token`. -/
theorem by_token_eq_none_of_forall {s : Store} {tok : TokenValue}
    (h : ∀ r ∈ s, r.token ≠ tok) : RefreshTokens.by_token s tok = none := by
  simp only [RefreshTokens.by_token, List.find?_eq_none, decide_eq_true_eq]
  exact h

/-- Claim C2 (amended): once a refresh request using a token value has
succeeded, any subsequent refresh presenting the same value fails with
Unauthorized and leaves the store unchanged (issuing nothing), PROVIDED
the rotation minted a refresh token different from the presented value —
which holds whenever the rotation runs at a different second than the
presented token was minted, since the codec is deterministic in the
claims. -/
theorem c2_rotation_single_use (cfg : Config) (store : Store) (v : TokenValue)
    (now1 now2 : Int) (id1 id2 : String) (mdf edf rdf mdf2 edf2 rdf2 : Bool)
    (s1 : Store) (res : RefreshOk)
    (h1 : refresh cfg store (some v) now1 id1 mdf edf rdf = (s1, .ok res))
    (hne : res.new_refresh_token ≠ v) :
    isUnauthorized (refresh cfg s1 (some v) now2 id2 mdf2 edf2 rdf2).2 = true ∧
    (refresh cfg s1 (some v) now2 id2 mdf2 edf2 rdf2).1 = s1 := by
  have key : ∀ r ∈ s1, r.token ≠ v := by
    simp only [refresh] at h1
    cases hd : decode_refresh_token v now1 with
    | error e => simp only [hd] at h1; simp at h1
    | ok claims =>
      simp only [hd] at h1
      cases hf : RefreshTokens.by_token store v with
      | none => simp only [hf] at h1; simp at h1
      | some r =>
        simp only [hf] at h1
        by_cases hu : r.user_id ≠ claims.user_id
        · rw [if_pos hu] at h1; simp at h1
        · rw [if_neg hu] at h1
          by_cases hex : RefreshTokens.is_expired store r.token now1 = true
          · rw [if_pos hex] at h1; simp at h1
          · rw [if_neg hex] at h1
            simp only [refreshRotate] at h1
            by_cases hr : rdf = true
            · rw [if_pos hr] at h1; simp at h1
            · rw [if_neg hr] at h1
              simp only [RefreshTokens.create] at h1
              by_cases hex2 : RefreshTokens.token_exists
                  (RefreshTokens.delete_by_token store v).1
                  (create_refresh_token cfg claims.user_id now1) = true
              · rw [if_pos hex2] at h1; simp at h1
              · rw [if_neg hex2] at h1
                simp only [Prod.mk.injEq, Except.ok.injEq] at h1
                obtain ⟨hs, hres⟩ := h1
                subst hs
                subst hres
                intro rc hrc
                rcases List.mem_append.mp hrc with hl | hr0
                · have := (List.mem_filter.mp hl).2
                  simpa using this
                · rw [List.mem_singleton.mp hr0]
                  exact hne
  cases hd2 : decode_refresh_token v now2 with
  | error e =>
    constructor
    · simp [refresh, hd2, isUnauthorized]
    · simp [refresh, hd2]
  | ok c2 =>
    have hbt : RefreshTokens.by_token s1 v = none := by_token_eq_none_of_forall key
    constructor
    · simp [refresh, hd2, hbt, isUnauthorized]
    · simp [refresh, hd2, hbt]

/-- Witness for claim C2 (amended) at a concrete input: a rotation one
second after the presented token was minted produces a different value,
after which presenting the original value again fails Unauthorized with
the store unchanged. -/
theorem c2_rotation_single_use_witness :
    isUnauthorized (refresh { access_token_expires_at := 1, refresh_token_expires_at := 1 }
        [⟨"idB", .signed ⟨3601, 1, "u1"⟩, "u1", 86401, 1⟩]
        (some (.signed ⟨3600, 0, "u1"⟩)) 2 "idC" false false false).2 = true ∧
    (refresh { access_token_expires_at := 1, refresh_token_expires_at := 1 }
        [⟨"idB", .signed ⟨3601, 1, "u1"⟩, "u1", 86401, 1⟩]
        (some (.signed ⟨3600, 0, "u1"⟩)) 2 "idC" false false false).1 =
      [⟨"idB", .signed ⟨3601, 1, "u1"⟩, "u1", 86401, 1⟩] :=
  c2_rotation_single_use { access_token_expires_at := 1, refresh_token_expires_at := 1 }
    [⟨"id0", .signed ⟨3600, 0, "u1"⟩, "u1", 86400, 0⟩] (.signed ⟨3600, 0, "u1"⟩)
    1 2 "idB" "idC" false false false false false false
    [⟨"idB", .signed ⟨3601, 1, "u1"⟩, "u1", 86401, 1⟩]
    ⟨⟨3601, 1, "u1"⟩, .signed ⟨3601, 1, "u1"⟩⟩ rfl (by decide)

end Tsumi
